import Mathlib

/-!
Verification development for the UTM (Unmanned Traffic Management) backend.

This file shallowly embeds the monitoring and flights routers of the
repository (`app/monitoring/router.py`, `app/flights/router.py`,
`app/utils/geospatial.py`, `app/monitoring/models.py`) in Lean 4 and proves
properties of the embedded code.

Modelling conventions:
* Python floats become `ℚ`; timestamps (`datetime.utcnow()`) become `ℤ`
  seconds, so `timedelta(minutes=5)` is `300`.
* Database tables become lists of rows inside an explicit state record;
  a SQLAlchemy `select(...).where(...)` becomes `List.filter`, and
  `scalar_one_or_none` becomes a function that errors on two or more rows
  (`MultipleResultsFound`), mirroring SQLAlchemy.
* Python exceptions / FastAPI `HTTPException` become `Except String`:
  `.error` means the request aborted and the transaction was not committed,
  so the stored state is unchanged.
* The pyproj geodesic primitives (`Geod.inv` distance, `Geod.fwd`
  interpolation) and the H3 library (`geo_to_h3`, `h3_to_geo`) are numeric
  library calls with no algorithmic content in this repository; they are
  abstracted into a `GeoModel` parameter.  Every embedded function is
  parametric in the `GeoModel`, exactly as the Python code is parametric in
  those libraries.  The explicit coordinate-range validation of
  `calculate_distance` IS code of the repository and is kept.
-/

deriving instance DecidableEq for Except

namespace UTM

/-- Abstraction of the external geodesy / H3 libraries used by the code:
`dist lat1 lon1 lat2 lon2` stands for `pyproj.Geod(ellps='WGS84')`'s inverse
distance, `fwd p1 p2 t` for the point a fraction `t` along the geodesic from
`p1` to `p2` (the code's `geod.fwd(p1, az12, dist * fraction)`), `geoToH3`
for `h3.geo_to_h3` and `h3ToGeo` for `h3.h3_to_geo`. -/
structure GeoModel where
  dist : ℚ → ℚ → ℚ → ℚ → ℚ
  fwd : ℚ × ℚ → ℚ × ℚ → ℚ → ℚ × ℚ
  geoToH3 : ℚ → ℚ → ℕ → String
  h3ToGeo : String → ℚ × ℚ

/-- The coordinate ranges `calculate_distance` accepts (app/utils/geospatial.py). -/
def ValidCoord (lat lon : ℚ) : Prop :=
  -90 ≤ lat ∧ lat ≤ 90 ∧ -180 ≤ lon ∧ lon ≤ 180

instance (lat lon : ℚ) : Decidable (ValidCoord lat lon) := by
  unfold ValidCoord; infer_instance

/-- Embedding of `calculate_distance` (app/utils/geospatial.py:11-42): validate
the coordinate ranges, then return the geodesic distance. -/
def calculate_distance (G : GeoModel) (lat1 lon1 lat2 lon2 : ℚ) : Except String ℚ :=
  if ¬ (-90 ≤ lat1 ∧ lat1 ≤ 90) ∨ ¬ (-90 ≤ lat2 ∧ lat2 ≤ 90) then
    .error "Latitude must be between -90 and 90 degrees"
  else if ¬ (-180 ≤ lon1 ∧ lon1 ≤ 180) ∨ ¬ (-180 ≤ lon2 ∧ lon2 ≤ 180) then
    .error "Longitude must be between -180 and 180 degrees"
  else
    .ok (G.dist lat1 lon1 lat2 lon2)

/-- Embedding of `point_in_circle` (app/utils/geospatial.py:45-64):
`calculate_distance(point, center) <= radius`. -/
def point_in_circle (G : GeoModel) (point_lat point_lon center_lat center_lon radius : ℚ) :
    Except String Bool := do
  let d ← calculate_distance G point_lat point_lon center_lat center_lon
  pure (decide (d ≤ radius))

/-- Embedding of `line_intersects_circle` (app/utils/geospatial.py:99-158):
return true when either endpoint is within `radius` of the center; otherwise
sample `num_points + 1 = 11` points along the geodesic (fractions `i/10`),
take the minimum of their distances to the center (the code starts from
`float('inf')`, modelled by `Option ℚ` with `none` for infinity), and compare
it with the radius. -/
def line_intersects_circle (G : GeoModel) (p1 p2 : ℚ × ℚ)
    (center_lat center_lon radius : ℚ) : Except String Bool := do
  let dist1 ← calculate_distance G p1.1 p1.2 center_lat center_lon
  let dist2 ← calculate_distance G p2.1 p2.2 center_lat center_lon
  if dist1 ≤ radius ∨ dist2 ≤ radius then
    pure true
  else do
    let sample_dists ← (List.range 11).mapM (fun (i : ℕ) =>
      calculate_distance G (G.fwd p1 p2 ((i : ℚ) / 10)).1 (G.fwd p1 p2 ((i : ℚ) / 10)).2
        center_lat center_lon)
    let min_dist : Option ℚ :=
      sample_dists.foldl (fun m d =>
        match m with
        | none => some d
        | some x => some (if x ≤ d then x else d)) none
    pure (match min_dist with
      | none => false
      | some m => decide (m ≤ radius))

/-- A row of `restricted_zones` (app/flights/models.py:9-20). -/
structure RestrictedZone where
  id : ℤ
  name : String
  center_lat : ℚ
  center_lng : ℚ
  radius : ℚ
  max_altitude : ℚ
  is_active : Bool
deriving DecidableEq, Repr

/-- The transient violation dictionary built by `check_restricted_zone_violation`
(app/monitoring/router.py:86-100). -/
structure ZoneViolation where
  zone_id : ℤ
  zone_name : String
  zone_type : String
  severity : String
  message : String
deriving DecidableEq, Repr

/-- The body of the zone loop of `check_restricted_zone_violation`
(app/monitoring/router.py:81-100): scan the active zones in order, and on the
first zone whose circle contains the point classify by altitude. -/
def check_zone_loop (G : GeoModel) (latitude longitude altitude : ℚ) :
    List RestrictedZone → Except String (Option ZoneViolation)
  | [] => .ok none
  | zone :: rest => do
      let inside ← point_in_circle G latitude longitude zone.center_lat zone.center_lng zone.radius
      if inside then
        if altitude > zone.max_altitude then
          .ok (some { zone_id := zone.id, zone_name := zone.name, zone_type := "restricted",
                      severity := "high",
                      message := "Drone entered restricted zone: " ++ zone.name ++
                        " (altitude: " ++ toString altitude ++ "m exceeds max: " ++
                        toString zone.max_altitude ++ "m)" })
        else
          .ok (some { zone_id := zone.id, zone_name := zone.name, zone_type := "restricted",
                      severity := "medium",
                      message := "Drone entered restricted zone: " ++ zone.name })
      else
        check_zone_loop G latitude longitude altitude rest

/-- Embedding of `check_restricted_zone_violation` (app/monitoring/router.py:62-106):
the zones come from `select(RestrictedZone).where(is_active == True)`; the
surrounding `try/except` turns any error into `None`. `drone_id` is only
logged by the source, but kept for fidelity. -/
def check_restricted_zone_violation (G : GeoModel) (drone_id : ℤ)
    (latitude longitude altitude : ℚ) (zones : List RestrictedZone) : Option ZoneViolation :=
  match check_zone_loop G latitude longitude altitude (zones.filter (fun z => z.is_active)) with
  | .ok v => v
  | .error _ => none

/-- A row of `hex_grid_cells` (app/monitoring/models.py:13-31).  `geometry`,
`created_at` and `last_updated` are not consulted by any embedded code path
and are omitted; `drones_count` has column default `0`. -/
structure HexGridCell where
  id : ℤ
  h3_index : String
  center_lat : ℚ
  center_lng : ℚ
  drones_count : ℤ
deriving DecidableEq, Repr

/-- A row of `current_drone_positions` (app/monitoring/models.py:34-66).
`speed`, `heading`, `battery_level` and `status` are nullable columns and the
second `process_telemetry_data` can store `None` in them, hence `Option`.
`last_update` has `server_default=func.now()` and `onupdate=func.now()`, so
it equals the time of the insert or last update. -/
structure CurrentDronePosition where
  drone_id : ℤ
  flight_request_id : Option ℤ
  hex_cell_id : ℤ
  latitude : ℚ
  longitude : ℚ
  altitude : ℚ
  speed : Option ℚ
  heading : Option ℚ
  battery_level : Option ℚ
  status : Option String
  last_update : ℤ
deriving DecidableEq, Repr

/-- A row of `telemetry_data` (app/monitoring/models.py:69-94). -/
structure TelemetryRow where
  drone_id : ℤ
  flight_request_id : Option ℤ
  latitude : ℚ
  longitude : ℚ
  altitude : ℚ
  speed : Option ℚ
  heading : Option ℚ
  battery_level : Option ℚ
  status : Option String
  timestamp : ℤ
deriving DecidableEq, Repr

/-- A row of `alerts` (app/monitoring/models.py:97-125).  `is_resolved` has
column default `False`; `resolved_at`/`resolved_by` are only written by
`resolve_alert`, which no claim exercises, and are omitted. -/
structure Alert where
  drone_id : ℤ
  flight_request_id : Option ℤ
  alert_type : String
  severity : String
  message : String
  latitude : ℚ
  longitude : ℚ
  altitude : ℚ
  is_resolved : Bool
  created_at : ℤ
deriving DecidableEq, Repr

/-- The `TelemetryDataCreate` pydantic schema (app/monitoring/schemas.py:8-21):
`speed`, `heading`, `battery_level` and `status` are `Optional` with defaults,
so an explicit JSON `null` reaches the router as `None`. -/
structure TelemetryDataCreate where
  drone_id : ℤ
  flight_request_id : Option ℤ
  latitude : ℚ
  longitude : ℚ
  altitude : ℚ
  speed : Option ℚ
  heading : Option ℚ
  battery_level : Option ℚ
  status : Option String
deriving DecidableEq, Repr

/-- The database state the monitoring router reads and writes: one list per
table, plus the autoincrement counter for `hex_grid_cells.id`. -/
structure MonState where
  telemetry_data : List TelemetryRow
  hex_grid_cells : List HexGridCell
  current_drone_positions : List CurrentDronePosition
  alerts : List Alert
  restricted_zones : List RestrictedZone
  next_hex_cell_id : ℤ
deriving DecidableEq, Repr

/-- SQLAlchemy `Result.scalar_one_or_none()`: `none` for no row, the row when
there is exactly one, and `MultipleResultsFound` for two or more. -/
def scalar_one_or_none {α : Type} : List α → Except String (Option α)
  | [] => .ok none
  | [a] => .ok (some a)
  | _ => .error "MultipleResultsFound"

/-- Python `x or default` for an optional float: `None` and `0` are falsy. -/
def pyOrQ (v : Option ℚ) (default : ℚ) : ℚ :=
  match v with
  | none => default
  | some x => if x = 0 then default else x

/-- Python `x or default` for an optional string: `None` and `""` are falsy. -/
def pyOrStr (v : Option String) (default : String) : String :=
  match v with
  | none => default
  | some x => if x = "" then default else x

/-- The SQL filter of the alert-deduplication queries
(app/monitoring/router.py:360-365 and 400-407): same drone, same alert type,
unresolved, created within the last `window` seconds. -/
def RecentUnresolved (a : Alert) (d : ℤ) (ty : String) (window now : ℤ) : Prop :=
  a.drone_id = d ∧ a.alert_type = ty ∧ a.is_resolved = false ∧ now - window < a.created_at

instance (a : Alert) (d : ℤ) (ty : String) (window now : ℤ) :
    Decidable (RecentUnresolved a d ty window now) := by
  unfold RecentUnresolved; infer_instance

/-- The rows the alert-deduplication `select` returns. -/
def recent_unresolved_alerts (alerts : List Alert) (d : ℤ) (ty : String) (window now : ℤ) :
    List Alert :=
  alerts.filter (fun a => decide (RecentUnresolved a d ty window now))

/-- The `Alert(...)` constructed for a restricted-zone violation
(app/monitoring/router.py:369-378). -/
def mkZoneAlert (t : TelemetryDataCreate) (v : ZoneViolation) (now : ℤ) : Alert :=
  { drone_id := t.drone_id, flight_request_id := t.flight_request_id,
    alert_type := "restricted_zone_violation", severity := v.severity, message := v.message,
    latitude := t.latitude, longitude := t.longitude, altitude := t.altitude,
    is_resolved := false, created_at := now }

/-- The `Alert(...)` constructed for low battery (app/monitoring/router.py:410-419). -/
def mkLowBatteryAlert (t : TelemetryDataCreate) (b : ℚ) (now : ℤ) : Alert :=
  { drone_id := t.drone_id, flight_request_id := t.flight_request_id,
    alert_type := "low_battery", severity := if b < 10 then "high" else "medium",
    message := "Low battery: " ++ toString b ++ "%",
    latitude := t.latitude, longitude := t.longitude, altitude := t.altitude,
    is_resolved := false, created_at := now }

/-- The zone-alert block of the first `process_telemetry_data`
(app/monitoring/router.py:355-394), run when a violation was found: query for
an unresolved `restricted_zone_violation` alert of the same drone created in
the last 5 minutes; only when there is none, add a new alert and broadcast a
`restricted_zone_alert` event.  Returns the alert table and the broadcast
events of this block. -/
def zone_violation_alert_step (t : TelemetryDataCreate) (v : ZoneViolation) (now : ℤ)
    (alerts : List Alert) : Except String (List Alert × List String) := do
  let existing ← scalar_one_or_none
    (recent_unresolved_alerts alerts t.drone_id "restricted_zone_violation" 300 now)
  match existing with
  | some _ => pure (alerts, [])
  | none => pure (alerts ++ [mkZoneAlert t v now], ["restricted_zone_alert"])

/-- The low-battery block of the first `process_telemetry_data`
(app/monitoring/router.py:396-420): `if telemetry.battery_level and
telemetry.battery_level < 20` — Python truthiness, so `None` and exactly `0`
skip the block — then the 10-minute deduplication query, then the alert. -/
def low_battery_alert_step (t : TelemetryDataCreate) (now : ℤ) (alerts : List Alert) :
    Except String (List Alert) :=
  match t.battery_level with
  | none => pure alerts
  | some b =>
      if b ≠ 0 ∧ b < 20 then do
        let existing ← scalar_one_or_none
          (recent_unresolved_alerts alerts t.drone_id "low_battery" 600 now)
        match existing with
        | some _ => pure alerts
        | none => pure (alerts ++ [mkLowBatteryAlert t b now])
      else pure alerts

/-- Embedding of the FIRST definition of `process_telemetry_data`
(app/monitoring/router.py:273-450): add the telemetry row, get-or-create the
hex cell for `geo_to_h3(lat, lon, 8)`, upsert the current position (with the
`or`-defaults of lines 319-322 / 338-341), then run the zone-violation and
low-battery alert blocks, commit, and broadcast a `telemetry_update`.
Returns the committed state and the broadcast event types in order.  In the
source this definition is shadowed by the second definition of the same name
further down in the module, so it is unreachable at runtime. -/
def process_telemetry_data_first (G : GeoModel) (t : TelemetryDataCreate) (now : ℤ)
    (s : MonState) : Except String (MonState × List String) := do
  let db_telemetry : TelemetryRow :=
    { drone_id := t.drone_id, flight_request_id := t.flight_request_id,
      latitude := t.latitude, longitude := t.longitude, altitude := t.altitude,
      speed := t.speed, heading := t.heading, battery_level := t.battery_level,
      status := t.status, timestamp := now }
  let h3_index := G.geoToH3 t.latitude t.longitude 8
  let found ← scalar_one_or_none (s.hex_grid_cells.filter (fun c => decide (c.h3_index = h3_index)))
  let (hex_cell, hex_cells, next_id) :=
    match found with
    | some c => (c, s.hex_grid_cells, s.next_hex_cell_id)
    | none =>
        let center := G.h3ToGeo h3_index
        let c : HexGridCell :=
          { id := s.next_hex_cell_id, h3_index := h3_index,
            center_lat := center.1, center_lng := center.2, drones_count := 0 }
        (c, s.hex_grid_cells ++ [c], s.next_hex_cell_id + 1)
  let current_pos ← scalar_one_or_none
    (s.current_drone_positions.filter (fun p => decide (p.drone_id = t.drone_id)))
  let positions :=
    match current_pos with
    | some _ =>
        s.current_drone_positions.map (fun p =>
          if p.drone_id = t.drone_id then
            { p with
              hex_cell_id := hex_cell.id, latitude := t.latitude,
              longitude := t.longitude, altitude := t.altitude,
              speed := some (pyOrQ t.speed 0), heading := some (pyOrQ t.heading 0),
              battery_level := some (pyOrQ t.battery_level 100),
              status := some (pyOrStr t.status "airborne"),
              flight_request_id := t.flight_request_id, last_update := now }
          else p)
    | none =>
        s.current_drone_positions ++
          [{ drone_id := t.drone_id, flight_request_id := t.flight_request_id,
             hex_cell_id := hex_cell.id, latitude := t.latitude, longitude := t.longitude,
             altitude := t.altitude, speed := some (pyOrQ t.speed 0),
             heading := some (pyOrQ t.heading 0),
             battery_level := some (pyOrQ t.battery_level 100),
             status := some (pyOrStr t.status "airborne"), last_update := now }]
  let violation :=
    check_restricted_zone_violation G t.drone_id t.latitude t.longitude t.altitude
      s.restricted_zones
  let step ←
    match violation with
    | none => pure (s.alerts, ([] : List String))
    | some v => zone_violation_alert_step t v now s.alerts
  let alerts2 ← low_battery_alert_step t now step.1
  pure ({ s with
          telemetry_data := s.telemetry_data ++ [db_telemetry],
          hex_grid_cells := hex_cells, next_hex_cell_id := next_id,
          current_drone_positions := positions, alerts := alerts2 },
        step.2 ++ ["telemetry_update"])

/-- Embedding of the SECOND definition of `process_telemetry_data`
(app/monitoring/router.py:821-888).  Because Python rebinds the module-level
name, THIS definition is the one `submit_telemetry` (the POST
/monitoring/telemetry endpoint, line 453) actually calls.  It adds the
telemetry row; when no hex cell exists for the H3 index it commits the
telemetry and returns without touching positions; otherwise it upserts the
current position with the telemetry values verbatim.  It performs no zone
check, creates no alert and broadcasts nothing. -/
def process_telemetry_data (G : GeoModel) (t : TelemetryDataCreate) (now : ℤ)
    (s : MonState) : Except String (MonState × List String) := do
  let db_telemetry : TelemetryRow :=
    { drone_id := t.drone_id, flight_request_id := t.flight_request_id,
      latitude := t.latitude, longitude := t.longitude, altitude := t.altitude,
      speed := t.speed, heading := t.heading, battery_level := t.battery_level,
      status := t.status, timestamp := now }
  let h3_index := G.geoToH3 t.latitude t.longitude 8
  let found ← scalar_one_or_none (s.hex_grid_cells.filter (fun c => decide (c.h3_index = h3_index)))
  match found with
  | none =>
      pure ({ s with telemetry_data := s.telemetry_data ++ [db_telemetry] }, [])
  | some hex_cell => do
      let current_pos ← scalar_one_or_none
        (s.current_drone_positions.filter (fun p => decide (p.drone_id = t.drone_id)))
      let positions :=
        match current_pos with
        | some _ =>
            s.current_drone_positions.map (fun p =>
              if p.drone_id = t.drone_id then
                { p with
                  hex_cell_id := hex_cell.id, latitude := t.latitude,
                  longitude := t.longitude, altitude := t.altitude,
                  speed := t.speed, heading := t.heading,
                  battery_level := t.battery_level, status := t.status,
                  flight_request_id := t.flight_request_id, last_update := now }
              else p)
        | none =>
            s.current_drone_positions ++
              [{ drone_id := t.drone_id, flight_request_id := t.flight_request_id,
                 hex_cell_id := hex_cell.id, latitude := t.latitude, longitude := t.longitude,
                 altitude := t.altitude, speed := t.speed, heading := t.heading,
                 battery_level := t.battery_level, status := t.status, last_update := now }]
      pure ({ s with
              telemetry_data := s.telemetry_data ++ [db_telemetry],
              current_drone_positions := positions }, [])

/-- The statuses the stale-position sweep treats as terminal
(app/monitoring/router.py:260); a SQL `IN` never matches a NULL column. -/
def TerminalStatus (st : Option String) : Prop :=
  st = some "landed" ∨ st = some "emergency" ∨ st = some "disconnected"

instance (st : Option String) : Decidable (TerminalStatus st) := by
  unfold TerminalStatus; infer_instance

/-- Embedding of the stale-position cleanup in the websocket loop
(app/monitoring/router.py:253-264): delete the positions whose `last_update`
is older than 5 minutes AND whose status is landed/emergency/disconnected. -/
def cleanup_stale_positions (now : ℤ) (s : MonState) : MonState :=
  let stale_time := now - 300
  { s with current_drone_positions :=
      s.current_drone_positions.filter (fun p =>
        decide (¬ (p.last_update < stale_time ∧ TerminalStatus p.status))) }

/-- The waypoint loop of `route_intersects_zone` (app/utils/geospatial.py:84-87):
true on the first waypoint inside the circle. -/
def route_points_in_circle (G : GeoModel) (center_lat center_lon radius : ℚ) :
    List (ℚ × ℚ) → Except String Bool
  | [] => .ok false
  | p :: rest => do
      let inside ← point_in_circle G p.1 p.2 center_lat center_lon radius
      if inside then .ok true else route_points_in_circle G center_lat center_lon radius rest

/-- The segment loop of `route_intersects_zone` (app/utils/geospatial.py:90-94):
true on the first consecutive pair whose segment intersects the circle. -/
def route_segments_intersect (G : GeoModel) (center_lat center_lon radius : ℚ) :
    List ((ℚ × ℚ) × (ℚ × ℚ)) → Except String Bool
  | [] => .ok false
  | (p, q) :: rest => do
      let hit ← line_intersects_circle G p q center_lat center_lon radius
      if hit then .ok true else route_segments_intersect G center_lat center_lon radius rest

/-- Embedding of `route_intersects_zone` (app/utils/geospatial.py:67-96):
check every waypoint, then every consecutive pair. -/
def route_intersects_zone (G : GeoModel) (waypoints : List (ℚ × ℚ))
    (center_lat center_lon radius : ℚ) : Except String Bool := do
  let hit ← route_points_in_circle G center_lat center_lon radius waypoints
  if hit then pure true
  else route_segments_intersect G center_lat center_lon radius (waypoints.zip waypoints.tail)

/-- The `WaypointBase` pydantic schema (app/flights/schemas.py:8-10).  It
carries ONLY latitude and longitude: there is no `altitude` field, although
`check_route_conflicts` accesses `wp.altitude` (pydantic drops the extra
keyword its callers pass, so that access raises `AttributeError`). -/
structure WaypointBase where
  latitude : ℚ
  longitude : ℚ
deriving DecidableEq, Repr

/-- The `ConflictCheck` response schema (app/flights/schemas.py:89-93). -/
structure ConflictCheck where
  has_conflicts : Bool
  conflicts : List String
  restricted_zones : List RestrictedZone
deriving DecidableEq, Repr

/-- The zone loop of `check_route_conflicts` (app/flights/router.py:74-89),
accumulating `conflicts` and `conflicting_zones`.  For each zone: when the
route intersects, append the two messages and the zone; then the altitude
loop `for wp in waypoints: if wp.altitude > zone.max_altitude ...` reads
`wp.altitude` on its first iteration — an attribute `WaypointBase` does not
have, so with a nonempty waypoint list it raises `AttributeError`. -/
def check_route_conflicts_loop (G : GeoModel) (route_points : List (ℚ × ℚ))
    (waypoints : List WaypointBase) :
    List RestrictedZone → List String → List RestrictedZone →
    Except String (List String × List RestrictedZone)
  | [], conflicts, conflicting_zones => .ok (conflicts, conflicting_zones)
  | zone :: rest, conflicts, conflicting_zones => do
      let hit ← route_intersects_zone G route_points zone.center_lat zone.center_lng zone.radius
      let acc ←
        if hit then do
          let p := route_points.headD (0, 0)
          let distance ← calculate_distance G p.1 p.2 zone.center_lat zone.center_lng
          pure (conflicts ++
              ["Route intersects with restricted zone: " ++ zone.name,
               "Distance to the restricted zone: " ++ toString distance ++
                 "m, while restricted zone radius is " ++ toString zone.radius ++ "m"],
            conflicting_zones ++ [zone])
        else
          pure (conflicts, conflicting_zones)
      match waypoints with
      | [] => check_route_conflicts_loop G route_points waypoints rest acc.1 acc.2
      | _ :: _ => .error "AttributeError: WaypointBase has no attribute altitude"

/-- Embedding of `check_route_conflicts` (app/flights/router.py:56-95): load
the active zones, turn the waypoints into coordinate tuples, run the zone
loop, and build the `ConflictCheck` response. -/
def check_route_conflicts (G : GeoModel) (waypoints : List WaypointBase)
    (zones : List RestrictedZone) : Except String ConflictCheck := do
  let restricted_zones := zones.filter (fun z => z.is_active)
  let route_points := waypoints.map (fun wp => (wp.latitude, wp.longitude))
  let r ← check_route_conflicts_loop G route_points waypoints restricted_zones [] []
  pure { has_conflicts := decide (r.1.length > 0), conflicts := r.1, restricted_zones := r.2 }

/-- A row of `flight_requests` (app/flights/models.py:23-51), restricted to the
columns the zone-mutation guards read. -/
structure FlightRequest where
  id : ℤ
  drone_id : ℤ
  status : String
  planned_start_time : ℤ
  planned_end_time : ℤ
deriving DecidableEq, Repr

/-- A row of `waypoints` (app/flights/models.py:54-65). -/
structure Waypoint where
  flight_request_id : ℤ
  sequence : ℤ
  latitude : ℚ
  longitude : ℚ
  altitude : ℚ
deriving DecidableEq, Repr

/-- The `RestrictedZoneUpdate` schema (app/flights/schemas.py:39-41):
`radius` required, `max_altitude` optional. -/
structure RestrictedZoneUpdate where
  radius : ℚ
  max_altitude : Option ℚ
deriving DecidableEq, Repr

/-- The flights-side database state read by the zone-mutation endpoints. -/
structure FlightState where
  restricted_zones : List RestrictedZone
  flight_requests : List FlightRequest
  waypoints : List Waypoint
deriving DecidableEq, Repr

/-- `ORDER BY sequence` via insertion sort. -/
def insertBySequence (w : Waypoint) : List Waypoint → List Waypoint
  | [] => [w]
  | v :: rest => if w.sequence ≤ v.sequence then w :: v :: rest else v :: insertBySequence w rest

/-- `ORDER BY sequence` over a waypoint list. -/
def sortBySequence : List Waypoint → List Waypoint
  | [] => []
  | w :: rest => insertBySequence w (sortBySequence rest)

/-- The `route_points` a zone-mutation guard builds for a flight
(app/flights/router.py:527-533 and 601-607): its waypoints ordered by
sequence, as (latitude, longitude) tuples. -/
def flight_route_points (s : FlightState) (f : FlightRequest) : List (ℚ × ℚ) :=
  (sortBySequence (s.waypoints.filter (fun w => decide (w.flight_request_id = f.id)))).map
    (fun w => (w.latitude, w.longitude))

/-- The flights both guards consider (app/flights/router.py:515-523 and
589-597): status approved or active, and `planned_end_time > current_time`. -/
def active_unelapsed_flights (flights : List FlightRequest) (now : ℤ) : List FlightRequest :=
  flights.filter (fun f =>
    decide ((f.status = "approved" ∨ f.status = "active") ∧ now < f.planned_end_time))

/-- The guard loop shared (verbatim, lines 525-540 and 599-615) by
`delete_restricted_zone` and `update_restricted_zone`: walk the active
flights in order and return the first whose route intersects the circle. -/
def find_conflicting_flight (G : GeoModel) (s : FlightState) (center_lat center_lng radius : ℚ) :
    List FlightRequest → Except String (Option FlightRequest)
  | [] => .ok none
  | f :: rest => do
      let hit ← route_intersects_zone G (flight_route_points s f) center_lat center_lng radius
      if hit then .ok (some f)
      else find_conflicting_flight G s center_lat center_lng radius rest

/-- Embedding of `delete_restricted_zone` (app/flights/router.py:483-552),
after the admin check: look the zone up, reject with a message naming the
first conflicting active flight (the `HTTPException` is raised before any
mutation, so `.error` leaves the stored state untouched), else delete. -/
def delete_restricted_zone (G : GeoModel) (zone_id : ℤ) (now : ℤ) (s : FlightState) :
    Except String FlightState := do
  let zone? ← scalar_one_or_none (s.restricted_zones.filter (fun z => decide (z.id = zone_id)))
  match zone? with
  | none => .error "Restricted zone not found"
  | some zone => do
      let conflict ← find_conflicting_flight G s zone.center_lat zone.center_lng zone.radius
        (active_unelapsed_flights s.flight_requests now)
      match conflict with
      | some f =>
          .error ("Cannot delete zone as it intersects with active flight request " ++
            toString f.id)
      | none =>
          .ok { s with restricted_zones :=
                  s.restricted_zones.filter (fun z => decide (¬ z.id = zone_id)) }

/-- Embedding of `update_restricted_zone` (app/flights/router.py:555-632),
after the admin check: the guard tests each active flight against the NEW
radius (`zone_update.radius`); on success set `radius`, and `max_altitude`
only when given. -/
def update_restricted_zone (G : GeoModel) (zone_id : ℤ) (zone_update : RestrictedZoneUpdate)
    (now : ℤ) (s : FlightState) : Except String FlightState := do
  let zone? ← scalar_one_or_none (s.restricted_zones.filter (fun z => decide (z.id = zone_id)))
  match zone? with
  | none => .error "Restricted zone not found"
  | some zone => do
      let conflict ← find_conflicting_flight G s zone.center_lat zone.center_lng
        zone_update.radius (active_unelapsed_flights s.flight_requests now)
      match conflict with
      | some f =>
          .error ("Cannot update zone as it would affect active flight request " ++
            toString f.id)
      | none =>
          .ok { s with restricted_zones :=
                  s.restricted_zones.map (fun z =>
                    if z.id = zone_id then
                      { z with
                        radius := zone_update.radius,
                        max_altitude :=
                          match zone_update.max_altitude with
                          | some m => m
                          | none => z.max_altitude }
                    else z) }

/-- Sequential ingestion through the live (second) `process_telemetry_data`:
each element is one POST /monitoring/telemetry call with its arrival time. -/
def process_sequence (G : GeoModel) :
    List (TelemetryDataCreate × ℤ) → MonState → Except String MonState
  | [], s => .ok s
  | (t, now) :: rest, s => do
      let r ← process_telemetry_data G t now s
      process_sequence G rest r.1

/-- The number of current-position rows a drone has. -/
def position_count (s : MonState) (d : ℤ) : ℕ :=
  (s.current_drone_positions.filter (fun p => decide (p.drone_id = d))).length

/-- A concrete, fully computable `GeoModel` used to evaluate the embedded
code on concrete inputs: taxicab distance on the coordinate plane and linear
interpolation along segments (so a point at fraction `t` of a segment is on
the segment), with a single-cell H3 grid. -/
def linGeo : GeoModel :=
  { dist := fun lat1 lon1 lat2 lon2 =>
      (if lat1 ≤ lat2 then lat2 - lat1 else lat1 - lat2) +
        (if lon1 ≤ lon2 then lon2 - lon1 else lon1 - lon2),
    fwd := fun p q t => (p.1 + t * (q.1 - p.1), p.2 + t * (q.2 - p.2)),
    geoToH3 := fun _ _ _ => "c0",
    h3ToGeo := fun _ => (0, 0) }

/-! ### Concrete fixtures

Small concrete database states and telemetry samples used to evaluate the
embedded endpoints at specific inputs. -/

/-- A restricted zone around (10, 10). -/
def zoneA : RestrictedZone :=
  { id := 1, name := "A", center_lat := 10, center_lng := 10, radius := 5,
    max_altitude := 100, is_active := true }

/-- A restricted zone around (50, 50). -/
def zoneB : RestrictedZone :=
  { id := 2, name := "B", center_lat := 50, center_lng := 50, radius := 5,
    max_altitude := 100, is_active := true }

/-- The hex cell every point resolves to under `linGeo`. -/
def cell0 : HexGridCell :=
  { id := 1, h3_index := "c0", center_lat := 0, center_lng := 0, drones_count := 0 }

/-- A telemetry sample of drone 7 inside `zoneB`, healthy battery. -/
def sampleInB : TelemetryDataCreate :=
  { drone_id := 7, flight_request_id := none, latitude := 50, longitude := 50,
    altitude := 50, speed := some 5, heading := some 0, battery_level := some 100,
    status := some "airborne" }

/-- A state with one active zone (`zoneB`) containing `sampleInB`, the hex
cell present, and no alerts. -/
def stateZoneB : MonState :=
  { telemetry_data := [], hex_grid_cells := [cell0], current_drone_positions := [],
    alerts := [], restricted_zones := [zoneB], next_hex_cell_id := 2 }

/-- An unresolved zone alert of drone 1, created at time 0 by a violation of
`zoneA` (its message names zone A). -/
def priorAlertA : Alert :=
  { drone_id := 1, flight_request_id := none, alert_type := "restricted_zone_violation",
    severity := "medium", message := "Drone entered restricted zone: A",
    latitude := 10, longitude := 10, altitude := 50, is_resolved := false, created_at := 0 }

/-- A telemetry sample of drone 1 inside `zoneB` (and far outside `zoneA`). -/
def sampleDrone1InB : TelemetryDataCreate :=
  { drone_id := 1, flight_request_id := none, latitude := 50, longitude := 50,
    altitude := 50, speed := some 5, heading := some 0, battery_level := some 100,
    status := some "airborne" }

/-- A state where drone 1 already holds the unresolved zone-A alert and both
zones are active. -/
def stateWithPriorA : MonState :=
  { telemetry_data := [], hex_grid_cells := [cell0],
    current_drone_positions :=
      [{ drone_id := 1, flight_request_id := none, hex_cell_id := 1, latitude := 10,
         longitude := 10, altitude := 50, speed := some 5, heading := some 0,
         battery_level := some 100, status := some "airborne", last_update := 0 }],
    alerts := [priorAlertA], restricted_zones := [zoneA, zoneB], next_hex_cell_id := 2 }

/-- A telemetry sample of drone 3 with no active zone around. -/
def sampleNoZone : TelemetryDataCreate :=
  { drone_id := 3, flight_request_id := none, latitude := 0, longitude := 0,
    altitude := 30, speed := some 5, heading := some 0, battery_level := some 100,
    status := some "airborne" }

/-- A state with one hex cell (count 0), no zones, no positions. -/
def stateOneCell : MonState :=
  { telemetry_data := [], hex_grid_cells := [cell0], current_drone_positions := [],
    alerts := [], restricted_zones := [], next_hex_cell_id := 2 }

/-- A state whose hex grid is empty (the sample's cell is not in the grid). -/
def stateNoCells : MonState :=
  { telemetry_data := [], hex_grid_cells := [], current_drone_positions := [],
    alerts := [], restricted_zones := [], next_hex_cell_id := 1 }

/-- A position of drone 1 with status `landed`, last updated at time 0,
inside hex cell 1. -/
def staleLandedPos : CurrentDronePosition :=
  { drone_id := 1, flight_request_id := none, hex_cell_id := 1, latitude := 0,
    longitude := 0, altitude := 0, speed := some 0, heading := some 0,
    battery_level := some 50, status := some "landed", last_update := 0 }

/-- A state holding that stale landed position, with its cell's
`drones_count` at 5. -/
def stateStale : MonState :=
  { telemetry_data := [],
    hex_grid_cells := [{ cell0 with drones_count := 5 }],
    current_drone_positions := [staleLandedPos],
    alerts := [], restricted_zones := [], next_hex_cell_id := 2 }

/-- An approved flight (id 7) whose planned end is at time 100. -/
def flightW : FlightRequest :=
  { id := 7, drone_id := 1, status := "approved", planned_start_time := 0,
    planned_end_time := 100 }

/-- A zone at the origin with radius 10. -/
def zoneW : RestrictedZone :=
  { id := 9, name := "W", center_lat := 0, center_lng := 0, radius := 10,
    max_altitude := 100, is_active := true }

/-- Flights-side state: `zoneW`, the approved flight 7, and its single
waypoint at the origin (inside `zoneW`). -/
def flightStateW : FlightState :=
  { restricted_zones := [zoneW],
    flight_requests := [flightW],
    waypoints := [{ flight_request_id := 7, sequence := 1, latitude := 0, longitude := 0,
                    altitude := 50 }] }

/-! ## Theorems -/

/-- C1: the POST /monitoring/telemetry endpoint persists the telemetry record,
but because the second definition of `process_telemetry_data` shadows the
first, it does NOT create or broadcast an alert even for a sample inside an
active restricted zone with no prior alert: the effective call leaves the
alert table empty and broadcasts nothing, while the shadowed first definition
at the same input would have created one alert and broadcast it. -/
theorem submit_telemetry_shadowed_no_alert :
    (process_telemetry_data linGeo sampleInB 0 stateZoneB).map
        (fun r => (r.1.alerts.length, r.1.telemetry_data.length, r.2)) =
      .ok (0, 1, []) ∧
    check_restricted_zone_violation linGeo 7 50 50 50 stateZoneB.restricted_zones ≠ none ∧
    (process_telemetry_data_first linGeo sampleInB 0 stateZoneB).map
        (fun r => (r.1.alerts.length, r.2)) =
      .ok (1, ["restricted_zone_alert", "telemetry_update"]) := by
  with_unfolding_all decide

/-- `pure` for `Except` is `.ok`. -/
theorem pure_eq_ok {ε α : Type} (a : α) : (pure a : Except ε α) = Except.ok a := rfl

/-- `do`-bind on a successful `Except` computation. -/
theorem bind_ok_eq {ε α β : Type} (a : α) (f : α → Except ε β) :
    ((Except.ok a : Except ε α) >>= f) = f a := rfl

/-- `do`-bind on a failed `Except` computation. -/
theorem bind_error_eq {ε α β : Type} (e : ε) (f : α → Except ε β) :
    ((Except.error e : Except ε α) >>= f) = Except.error e := rfl

/-- With both points inside the accepted ranges, `calculate_distance` returns
the geodesic distance. -/
theorem calculate_distance_valid (G : GeoModel) {lat1 lon1 lat2 lon2 : ℚ}
    (h1 : ValidCoord lat1 lon1) (h2 : ValidCoord lat2 lon2) :
    calculate_distance G lat1 lon1 lat2 lon2 = .ok (G.dist lat1 lon1 lat2 lon2) := by
  obtain ⟨a1, b1, c1, d1⟩ := h1
  obtain ⟨a2, b2, c2, d2⟩ := h2
  simp [calculate_distance, a1, b1, c1, d1, a2, b2, c2, d2]

/-- With both points valid, `point_in_circle` succeeds with the distance
comparison. -/
theorem point_in_circle_valid (G : GeoModel) {plat plon clat clon : ℚ} (radius : ℚ)
    (h1 : ValidCoord plat plon) (h2 : ValidCoord clat clon) :
    point_in_circle G plat plon clat clon radius =
      .ok (decide (G.dist plat plon clat clon ≤ radius)) := by
  simp [point_in_circle, calculate_distance_valid G h1 h2]

/-- The zone loop returns the classification of the first zone in the list
whose circle contains the point. -/
theorem check_zone_loop_find (G : GeoModel) (latitude longitude altitude : ℚ)
    (zs : List RestrictedZone) (hp : ValidCoord latitude longitude)
    (hz : ∀ z ∈ zs, ValidCoord z.center_lat z.center_lng) :
    check_zone_loop G latitude longitude altitude zs =
      .ok ((zs.find? (fun z =>
            decide (G.dist latitude longitude z.center_lat z.center_lng ≤ z.radius))).map
        (fun z =>
          if altitude > z.max_altitude then
            { zone_id := z.id, zone_name := z.name, zone_type := "restricted",
              severity := "high",
              message := "Drone entered restricted zone: " ++ z.name ++
                " (altitude: " ++ toString altitude ++ "m exceeds max: " ++
                toString z.max_altitude ++ "m)" }
          else
            { zone_id := z.id, zone_name := z.name, zone_type := "restricted",
              severity := "medium",
              message := "Drone entered restricted zone: " ++ z.name })) := by
  induction zs with
  | nil => simp [check_zone_loop]
  | cons z rest ih =>
      have hcz := hz z (by simp)
      rw [check_zone_loop, point_in_circle_valid G z.radius hp hcz]
      by_cases hb : G.dist latitude longitude z.center_lat z.center_lng ≤ z.radius
      · have hd : decide (G.dist latitude longitude z.center_lat z.center_lng ≤ z.radius)
            = true := by simpa using hb
        by_cases halt : z.max_altitude < altitude
        · simp [List.find?, hd, bind_ok_eq, halt]
        · simp [List.find?, hd, bind_ok_eq, halt]
      · have hd : decide (G.dist latitude longitude z.center_lat z.center_lng ≤ z.radius)
            = false := by simpa using hb
        simp only [List.find?, hd, bind_ok_eq, Bool.false_eq_true, if_false]
        exact ih (fun w hw => hz w (by simp [hw]))

/-- C2: `check_restricted_zone_violation` returns the violation of the first
active zone (in iteration order) whose circle contains the point — severity
"high" with a message citing the drone's altitude and the zone ceiling when
the altitude exceeds the zone's `max_altitude`, otherwise severity "medium"
— and `none` when no active zone contains the point.  The hypotheses are the
coordinate ranges `calculate_distance` accepts (outside them it raises and
the surrounding `except` returns `None`). -/
theorem check_restricted_zone_violation_first_active_match (G : GeoModel) (d : ℤ)
    (latitude longitude altitude : ℚ) (zones : List RestrictedZone)
    (hp : ValidCoord latitude longitude)
    (hz : ∀ z ∈ zones, z.is_active = true → ValidCoord z.center_lat z.center_lng) :
    check_restricted_zone_violation G d latitude longitude altitude zones =
      ((zones.filter (fun z => z.is_active)).find? (fun z =>
          decide (G.dist latitude longitude z.center_lat z.center_lng ≤ z.radius))).map
        (fun z =>
          if altitude > z.max_altitude then
            { zone_id := z.id, zone_name := z.name, zone_type := "restricted",
              severity := "high",
              message := "Drone entered restricted zone: " ++ z.name ++
                " (altitude: " ++ toString altitude ++ "m exceeds max: " ++
                toString z.max_altitude ++ "m)" }
          else
            { zone_id := z.id, zone_name := z.name, zone_type := "restricted",
              severity := "medium",
              message := "Drone entered restricted zone: " ++ z.name }) := by
  unfold check_restricted_zone_violation
  rw [check_zone_loop_find G latitude longitude altitude _ hp]
  intro w hw
  rw [List.mem_filter] at hw
  exact hz w hw.1 hw.2

/-- Witness for C2: drone 7 at (10, 10), altitude 150, against the active
zones A (containing, ceiling 100) and B: the first match is zone A and the
violation is "high" citing 150 and 100. -/
theorem check_restricted_zone_violation_first_active_match_witness :
    ValidCoord 10 10 ∧
    (∀ z ∈ [zoneA, zoneB], z.is_active = true → ValidCoord z.center_lat z.center_lng) ∧
    check_restricted_zone_violation linGeo 7 10 10 150 [zoneA, zoneB] =
      (([zoneA, zoneB].filter (fun z => z.is_active)).find? (fun z =>
          decide (linGeo.dist 10 10 z.center_lat z.center_lng ≤ z.radius))).map
        (fun z =>
          if (150 : ℚ) > z.max_altitude then
            { zone_id := z.id, zone_name := z.name, zone_type := "restricted",
              severity := "high",
              message := "Drone entered restricted zone: " ++ z.name ++
                " (altitude: " ++ toString (150 : ℚ) ++ "m exceeds max: " ++
                toString z.max_altitude ++ "m)" }
          else
            { zone_id := z.id, zone_name := z.name, zone_type := "restricted",
              severity := "medium",
              message := "Drone entered restricted zone: " ++ z.name }) :=
  ⟨by with_unfolding_all decide, by with_unfolding_all decide,
    check_restricted_zone_violation_first_active_match linGeo 7 10 10 150 [zoneA, zoneB]
      (by with_unfolding_all decide) (by with_unfolding_all decide)⟩

/-- C3 counterexample: drone 1's previous position matched zone A (id 1) and
its unresolved zone-A alert is 60 seconds old; the current position violates
zone B (id 2), a DIFFERENT zone, yet telemetry processing creates no new
alert (the dedup query keys on (drone, alert kind) only), refuting the claim
that a different-zone violation is never suppressed inside the window. -/
theorem different_zone_violation_suppressed :
    check_restricted_zone_violation linGeo 1 10 10 50 stateWithPriorA.restricted_zones =
      some { zone_id := 1, zone_name := "A", zone_type := "restricted", severity := "medium",
             message := "Drone entered restricted zone: A" } ∧
    check_restricted_zone_violation linGeo 1 50 50 50 stateWithPriorA.restricted_zones =
      some { zone_id := 2, zone_name := "B", zone_type := "restricted", severity := "medium",
             message := "Drone entered restricted zone: B" } ∧
    priorAlertA.created_at = 0 ∧ priorAlertA.is_resolved = false ∧
    (process_telemetry_data_first linGeo sampleDrone1InB 60 stateWithPriorA).map
        (fun r => r.1.alerts) = .ok [priorAlertA] := by
  with_unfolding_all decide

/-- C4: after ingesting a sample into hex cell 1 (whose `drones_count` is 0),
one live position references the cell but `drones_count` is still 0 — no code
path adjusts it.  Both the first (shadowed) and the second (live) definition
of `process_telemetry_data` leave every cell's count untouched. -/
theorem drones_count_not_adjusted_on_ingest :
    (process_telemetry_data_first linGeo sampleNoZone 0 stateOneCell).map
        (fun r => (r.1.hex_grid_cells.map (fun c => c.drones_count),
          (r.1.current_drone_positions.filter (fun p => decide (p.hex_cell_id = 1))).length)) =
      .ok ([0], 1) ∧
    (process_telemetry_data linGeo sampleNoZone 0 stateOneCell).map
        (fun r => (r.1.hex_grid_cells.map (fun c => c.drones_count),
          (r.1.current_drone_positions.filter (fun p => decide (p.hex_cell_id = 1))).length)) =
      .ok ([0], 1) := by
  with_unfolding_all decide

/-- C5 counterexample: when the sample's H3 cell is not in the hex grid, the
live `process_telemetry_data` commits the telemetry row but skips the
position upsert entirely, so after N = 1 samples the drone has zero current
Position rows — the first sample does not insert. -/
theorem ingest_without_hex_cell_leaves_no_position :
    (process_telemetry_data linGeo sampleNoZone 0 stateNoCells).map
        (fun r => (r.1.current_drone_positions.length, r.1.telemetry_data.length)) =
      .ok (0, 1) := by
  with_unfolding_all decide

/-- C6 counterexample: the sweep removes the 10-minute-old landed position
from hex cell 1, but the cell's `drones_count` stays 5 — the DELETE performs
no decrement, refuting the decrement part of the claim. -/
theorem stale_eviction_does_not_decrement_count :
    (cleanup_stale_positions 601 stateStale).current_drone_positions = [] ∧
    (cleanup_stale_positions 601 stateStale).hex_grid_cells.map (fun c => c.drones_count) =
      [5] := by
  with_unfolding_all decide

/-- C7 counterexample: the segment from (0,0) to (20,0) passes straight
through the center (1,0) of a circle of radius 1/2 — the point at fraction
1/20 along it IS the center, so the minimum distance from the center to the
segment is 0 ≤ radius, and both endpoints are outside — yet
`line_intersects_circle` returns false, because the intersection falls
between its 11 sample points (fractions 0, 1/10, …, 1). -/
theorem segment_through_center_missed :
    line_intersects_circle linGeo (0, 0) (20, 0) 1 0 (1/2) = .ok false ∧
    linGeo.fwd (0, 0) (20, 0) (1/20) = (1, 0) ∧
    (0 : ℚ) ≤ 1/20 ∧ (1/20 : ℚ) ≤ 1 ∧
    linGeo.dist 1 0 1 0 ≤ 1/2 ∧
    ¬ linGeo.dist 0 0 1 0 ≤ 1/2 ∧ ¬ linGeo.dist 20 0 1 0 ≤ 1/2 := by
  with_unfolding_all decide

/-- C9: `check_route_conflicts` cannot return a result for any nonempty
waypoint list against any active zone: its altitude loop reads
`wp.altitude`, an attribute the `WaypointBase` input schema does not carry,
so the call raises `AttributeError` instead of producing the aggregated
violation list (here: one waypoint, one active zone). -/
theorem check_route_conflicts_altitude_attribute_error :
    check_route_conflicts linGeo [{ latitude := 51, longitude := 71 }] [zoneW] =
      .error "AttributeError: WaypointBase has no attribute altitude" := by
  with_unfolding_all decide

/-- Appending one element never returns the same list. -/
theorem ne_append_singleton {α : Type} (l : List α) (x : α) : l ≠ l ++ [x] := by
  intro h
  have := congrArg List.length h
  simp at this

/-- C10: the low-battery block of telemetry processing.  With
`battery_level = some b` in the schema's range (`0 ≤ b`): a battery of
exactly 0 creates no alert (Python `telemetry.battery_level and ...` is
falsy at 0, although 0 < 20); an alert is appended exactly when
`0 < b < 20` and no unresolved low-battery alert of the drone exists in the
prior 10 minutes; and the created alert's severity is "high" exactly when
`b < 10`, else "medium". -/
theorem low_battery_zero_is_falsy (t : TelemetryDataCreate) (alerts : List Alert) (now : ℤ)
    (b : ℚ) (hb : t.battery_level = some b) (hge : 0 ≤ b) :
    (b = 0 → low_battery_alert_step t now alerts = .ok alerts) ∧
    (low_battery_alert_step t now alerts = .ok (alerts ++ [mkLowBatteryAlert t b now]) ↔
      0 < b ∧ b < 20 ∧ ¬ ∃ a ∈ alerts, RecentUnresolved a t.drone_id "low_battery" 600 now) ∧
    ((mkLowBatteryAlert t b now).severity = "high" ↔ b < 10) ∧
    (mkLowBatteryAlert t b now).alert_type = "low_battery" ∧
    (mkLowBatteryAlert t b now).is_resolved = false := by
  refine ⟨?_, ?_, ?_, rfl, rfl⟩
  · intro h0
    simp [low_battery_alert_step, hb, h0, pure_eq_ok]
  · by_cases hcond : b ≠ 0 ∧ b < 20
    · have hpos : 0 < b := lt_of_le_of_ne hge (Ne.symm hcond.1)
      match hfa : recent_unresolved_alerts alerts t.drone_id "low_battery" 600 now with
      | [] =>
          have hno : ¬ ∃ a ∈ alerts, RecentUnresolved a t.drone_id "low_battery" 600 now := by
            rw [recent_unresolved_alerts, List.filter_eq_nil_iff] at hfa
            intro ⟨a, ha, hq⟩
            exact absurd (decide_eq_true hq) (hfa a ha)
          simp [low_battery_alert_step, hb, hcond, hfa, scalar_one_or_none, bind_ok_eq,
            hpos, hcond.2, hno, pure_eq_ok]
      | [a0] =>
          have hyes : ∃ a ∈ alerts, RecentUnresolved a t.drone_id "low_battery" 600 now := by
            have : a0 ∈ recent_unresolved_alerts alerts t.drone_id "low_battery" 600 now := by
              rw [hfa]; simp
            rw [recent_unresolved_alerts, List.mem_filter] at this
            exact ⟨a0, this.1, of_decide_eq_true this.2⟩
          have : low_battery_alert_step t now alerts = .ok alerts := by
            simp [low_battery_alert_step, hb, hcond, hfa, scalar_one_or_none, bind_ok_eq,
              pure_eq_ok]
          simp [this, hyes, (ne_append_singleton alerts (mkLowBatteryAlert t b now))]
      | a0 :: a1 :: l =>
          have hyes : ∃ a ∈ alerts, RecentUnresolved a t.drone_id "low_battery" 600 now := by
            have : a0 ∈ recent_unresolved_alerts alerts t.drone_id "low_battery" 600 now := by
              rw [hfa]; simp
            rw [recent_unresolved_alerts, List.mem_filter] at this
            exact ⟨a0, this.1, of_decide_eq_true this.2⟩
          have : low_battery_alert_step t now alerts =
              .error "MultipleResultsFound" := by
            simp [low_battery_alert_step, hb, hcond, hfa, scalar_one_or_none, bind_error_eq]
          simp [this, hyes]
    · have hno20 : ¬ (0 < b ∧ b < 20) := by
        intro ⟨h1, h2⟩
        exact hcond ⟨ne_of_gt h1, h2⟩
      have : low_battery_alert_step t now alerts = .ok alerts := by
        simp [low_battery_alert_step, hb, hcond, pure_eq_ok]
      simp [this, (ne_append_singleton alerts (mkLowBatteryAlert t b now))]
      intro h1 h2
      exact absurd ⟨h1, h2⟩ hno20
  · rw [mkLowBatteryAlert]
    by_cases h10 : b < 10
    · simp [h10]
    · simp [h10]

/-- Witness for C10: battery exactly 0 at a drone with no alerts creates
nothing, and the characterization holds at battery 0. -/
theorem low_battery_zero_is_falsy_witness :
    ({ sampleInB with battery_level := some 0 } : TelemetryDataCreate).battery_level
        = some 0 ∧ (0 : ℚ) ≤ 0 ∧
    (((0 : ℚ) = 0 →
      low_battery_alert_step { sampleInB with battery_level := some 0 } 0 [] = .ok []) ∧
    (low_battery_alert_step { sampleInB with battery_level := some 0 } 0 [] =
        .ok ([] ++ [mkLowBatteryAlert { sampleInB with battery_level := some 0 } 0 0]) ↔
      (0 : ℚ) < 0 ∧ (0 : ℚ) < 20 ∧
        ¬ ∃ a ∈ ([] : List Alert),
          RecentUnresolved a ({ sampleInB with battery_level := some 0 } :
            TelemetryDataCreate).drone_id "low_battery" 600 0) ∧
    ((mkLowBatteryAlert { sampleInB with battery_level := some 0 } 0 0).severity = "high" ↔
      (0 : ℚ) < 10) ∧
    (mkLowBatteryAlert { sampleInB with battery_level := some 0 } 0 0).alert_type
        = "low_battery" ∧
    (mkLowBatteryAlert { sampleInB with battery_level := some 0 } 0 0).is_resolved = false) :=
  ⟨rfl, le_refl 0,
    low_battery_zero_is_falsy { sampleInB with battery_level := some 0 } [] 0 0 rfl
      (le_refl 0)⟩

/-- C3 (amended): the zone-alert deduplication is keyed on (drone, alert
kind) only — the zone is not part of the key, and the `Alert` row does not
even store a zone id.  A new unresolved alert (created now) is appended and
broadcast exactly when NO unresolved `restricted_zone_violation` alert of the
same drone exists within the 5-minute window, whatever zone either violation
concerns; when exactly one such alert exists the violation is suppressed
(regardless of its zone); the window restarts only after the alert leaves
the query — by resolution or by `created_at` falling out of the window. -/
theorem zone_alert_dedup_by_drone_and_kind (t : TelemetryDataCreate) (v : ZoneViolation)
    (alerts : List Alert) (now : ℤ) :
    (zone_violation_alert_step t v now alerts =
        .ok (alerts ++ [mkZoneAlert t v now], ["restricted_zone_alert"]) ↔
      ¬ ∃ a ∈ alerts, RecentUnresolved a t.drone_id "restricted_zone_violation" 300 now) ∧
    (∀ a0, recent_unresolved_alerts alerts t.drone_id "restricted_zone_violation" 300 now
        = [a0] →
      zone_violation_alert_step t v now alerts = .ok (alerts, [])) ∧
    (mkZoneAlert t v now).is_resolved = false ∧
    (mkZoneAlert t v now).created_at = now ∧
    (mkZoneAlert t v now).alert_type = "restricted_zone_violation" ∧
    (mkZoneAlert t v now).severity = v.severity := by
  refine ⟨?_, ?_, rfl, rfl, rfl, rfl⟩
  · match hfa : recent_unresolved_alerts alerts t.drone_id "restricted_zone_violation" 300 now
      with
    | [] =>
        have hno : ¬ ∃ a ∈ alerts,
            RecentUnresolved a t.drone_id "restricted_zone_violation" 300 now := by
          rw [recent_unresolved_alerts, List.filter_eq_nil_iff] at hfa
          intro ⟨a, ha, hq⟩
          exact absurd (decide_eq_true hq) (hfa a ha)
        simp [zone_violation_alert_step, hfa, scalar_one_or_none, bind_ok_eq, pure_eq_ok, hno]
    | [a0] =>
        have hyes : ∃ a ∈ alerts,
            RecentUnresolved a t.drone_id "restricted_zone_violation" 300 now := by
          have : a0 ∈ recent_unresolved_alerts alerts t.drone_id
              "restricted_zone_violation" 300 now := by
            rw [hfa]; simp
          rw [recent_unresolved_alerts, List.mem_filter] at this
          exact ⟨a0, this.1, of_decide_eq_true this.2⟩
        simp [zone_violation_alert_step, hfa, scalar_one_or_none, bind_ok_eq, pure_eq_ok, hyes]
    | a0 :: a1 :: l =>
        have hyes : ∃ a ∈ alerts,
            RecentUnresolved a t.drone_id "restricted_zone_violation" 300 now := by
          have : a0 ∈ recent_unresolved_alerts alerts t.drone_id
              "restricted_zone_violation" 300 now := by
            rw [hfa]; simp
          rw [recent_unresolved_alerts, List.mem_filter] at this
          exact ⟨a0, this.1, of_decide_eq_true this.2⟩
        simp [zone_violation_alert_step, hfa, scalar_one_or_none, bind_error_eq, hyes]
  · intro a0 hfa
    simp [zone_violation_alert_step, hfa, scalar_one_or_none, bind_ok_eq, pure_eq_ok]

/-- C6 (amended): the stale sweep keeps exactly the positions that are NOT
(older than the 5-minute retention window AND in the terminal status set
{landed, emergency, disconnected}); airborne and hovering positions are kept
whatever their age; and no other table changes — in particular the owning
hex cells' `drones_count` values are NOT decremented. -/
theorem cleanup_stale_positions_selects_terminal_old (now : ℤ) (s : MonState) :
    (∀ p, p ∈ (cleanup_stale_positions now s).current_drone_positions ↔
      p ∈ s.current_drone_positions ∧
        ¬ (p.last_update < now - 300 ∧ TerminalStatus p.status)) ∧
    (∀ p ∈ s.current_drone_positions,
      p.status = some "airborne" ∨ p.status = some "hovering" →
        p ∈ (cleanup_stale_positions now s).current_drone_positions) ∧
    (cleanup_stale_positions now s).hex_grid_cells = s.hex_grid_cells ∧
    (cleanup_stale_positions now s).alerts = s.alerts ∧
    (cleanup_stale_positions now s).telemetry_data = s.telemetry_data := by
  refine ⟨?_, ?_, rfl, rfl, rfl⟩
  · intro p
    simp only [cleanup_stale_positions, List.mem_filter, decide_eq_true_eq]
  · intro p hp hst
    have hterm : ¬ TerminalStatus p.status := by
      rcases hst with h | h <;> rw [h] <;> intro hc <;>
        rcases hc with h2 | h2 | h2 <;> simp at h2
    simp [cleanup_stale_positions, List.mem_filter, hp, hterm]

/-- `mapM` over `Except` succeeds pointwise. -/
theorem mapM_ok_of_pointwise {ε α β : Type} {l : List α} {g : α → Except ε β} {d : α → β}
    (h : ∀ i ∈ l, g i = .ok (d i)) : l.mapM g = .ok (l.map d) := by
  induction l with
  | nil => rfl
  | cons i rest ih =>
      rw [List.mapM_cons, h i (by simp)]
      simp only [List.map_cons]
      rw [ih (fun j hj => h j (by simp [hj]))]
      rfl

/-- The running-minimum fold of `line_intersects_circle`, compared with the
radius, is true exactly when some sampled distance is within the radius. -/
theorem fold_min_le_iff (l : List ℚ) (r : ℚ) :
    (match l.foldl (fun m d =>
        match m with
        | none => some d
        | some x => some (if x ≤ d then x else d)) none with
      | none => false
      | some m => decide (m ≤ r)) = decide (∃ d ∈ l, d ≤ r) := by
  have aux : ∀ (l : List ℚ) (x : ℚ),
      (match l.foldl (fun m d =>
          match m with
          | none => some d
          | some x => some (if x ≤ d then x else d)) (some x) with
        | none => false
        | some m => decide (m ≤ r)) = decide (x ≤ r ∨ ∃ d ∈ l, d ≤ r) := by
    intro l
    induction l with
    | nil => intro x; simp
    | cons d rest ih =>
        intro x
        rw [List.foldl_cons]
        show (match rest.foldl _ (some (if x ≤ d then x else d)) with
          | none => false
          | some m => decide (m ≤ r)) = _
        rw [ih (if x ≤ d then x else d)]
        apply decide_eq_decide.mpr
        rw [List.exists_mem_cons_iff]
        by_cases hxd : x ≤ d
        · simp only [if_pos hxd]
          constructor
          · rintro (h | h)
            · exact Or.inl h
            · exact Or.inr (Or.inr h)
          · rintro (h | h | h)
            · exact Or.inl h
            · exact Or.inl (le_trans hxd h)
            · exact Or.inr h
        · simp only [if_neg hxd]
          constructor
          · rintro (h | h)
            · exact Or.inr (Or.inl h)
            · exact Or.inr (Or.inr h)
          · rintro (h | h | h)
            · exact Or.inl (le_trans (le_of_not_le hxd) h)
            · exact Or.inl h
            · exact Or.inr h
  match l with
  | [] => simp
  | d :: rest =>
      rw [List.foldl_cons]
      show (match rest.foldl _ (some d) with
        | none => false
        | some m => decide (m ≤ r)) = _
      rw [aux rest d]
      apply decide_eq_decide.mpr
      rw [List.exists_mem_cons_iff]

/-- C7 (amended): `line_intersects_circle` returns true exactly when an
endpoint is within the radius of the center, or one of the 11 points sampled
at fractions i/10 along the geodesic is within the radius.  "Entirely
outside" segments (all points beyond the radius, samples included) therefore
yield false and a segment with an endpoint inside yields true, but the true
minimum distance of the segment is only approximated by the 11 samples: an
intersection that falls strictly between consecutive samples is missed (see
the counterexample).  The hypotheses are the coordinate-range checks of
`calculate_distance`. -/
theorem line_intersects_circle_sampled_characterization (G : GeoModel) (p1 p2 : ℚ × ℚ)
    (center_lat center_lon radius : ℚ)
    (h1 : ValidCoord p1.1 p1.2) (h2 : ValidCoord p2.1 p2.2)
    (hc : ValidCoord center_lat center_lon)
    (hs : ∀ i : ℕ, i ∈ List.range 11 →
      ValidCoord (G.fwd p1 p2 ((i : ℚ) / 10)).1 (G.fwd p1 p2 ((i : ℚ) / 10)).2) :
    line_intersects_circle G p1 p2 center_lat center_lon radius =
      .ok (decide (G.dist p1.1 p1.2 center_lat center_lon ≤ radius ∨
        G.dist p2.1 p2.2 center_lat center_lon ≤ radius ∨
        ∃ i : ℕ, i ∈ List.range 11 ∧
          G.dist (G.fwd p1 p2 ((i : ℚ) / 10)).1 (G.fwd p1 p2 ((i : ℚ) / 10)).2
            center_lat center_lon ≤ radius)) := by
  rw [line_intersects_circle, calculate_distance_valid G h1 hc, bind_ok_eq,
    calculate_distance_valid G h2 hc, bind_ok_eq]
  by_cases hend : G.dist p1.1 p1.2 center_lat center_lon ≤ radius ∨
      G.dist p2.1 p2.2 center_lat center_lon ≤ radius
  · rw [if_pos hend]
    have hprop : (G.dist p1.1 p1.2 center_lat center_lon ≤ radius ∨
        G.dist p2.1 p2.2 center_lat center_lon ≤ radius ∨
        ∃ i : ℕ, i ∈ List.range 11 ∧
          G.dist (G.fwd p1 p2 ((i : ℚ) / 10)).1 (G.fwd p1 p2 ((i : ℚ) / 10)).2
            center_lat center_lon ≤ radius) := by
      rcases hend with h | h
      · exact Or.inl h
      · exact Or.inr (Or.inl h)
    rw [pure_eq_ok, decide_eq_true hprop]
  · rw [if_neg hend]
    have hmap : (List.range 11).mapM (fun (i : ℕ) =>
        calculate_distance G (G.fwd p1 p2 ((i : ℚ) / 10)).1 (G.fwd p1 p2 ((i : ℚ) / 10)).2
          center_lat center_lon) =
          .ok ((List.range 11).map (fun (i : ℕ) =>
            G.dist (G.fwd p1 p2 ((i : ℚ) / 10)).1 (G.fwd p1 p2 ((i : ℚ) / 10)).2
              center_lat center_lon)) :=
      mapM_ok_of_pointwise (fun i hi => calculate_distance_valid G (hs i hi) hc)
    rw [hmap, bind_ok_eq]
    have := fold_min_le_iff ((List.range 11).map (fun (i : ℕ) =>
      G.dist (G.fwd p1 p2 ((i : ℚ) / 10)).1 (G.fwd p1 p2 ((i : ℚ) / 10)).2
        center_lat center_lon)) radius
    rw [pure_eq_ok, this]
    congr 1
    apply decide_eq_decide.mpr
    push_neg at hend
    constructor
    · intro ⟨d, hd, hdr⟩
      rcases List.mem_map.mp hd with ⟨i, hi, rfl⟩
      exact Or.inr (Or.inr ⟨i, hi, hdr⟩)
    · rintro (h | h | ⟨i, hi, hdr⟩)
      · exact absurd h (by simpa using hend.1)
      · exact absurd h (by simpa using hend.2)
      · exact ⟨_, List.mem_map.mpr ⟨i, hi, rfl⟩, hdr⟩

/-- Witness for C7's amended characterization: the segment from (0,0) to
(20,0) against the circle at (4,0) with radius 1/2 — the sample at fraction
2/10 is the center itself, so the characterization yields true. -/
theorem line_intersects_circle_sampled_characterization_witness :
    ValidCoord 0 0 ∧ ValidCoord 20 0 ∧ ValidCoord 4 0 ∧
    (∀ i : ℕ, i ∈ List.range 11 →
      ValidCoord (linGeo.fwd (0, 0) (20, 0) ((i : ℚ) / 10)).1
        (linGeo.fwd (0, 0) (20, 0) ((i : ℚ) / 10)).2) ∧
    line_intersects_circle linGeo (0, 0) (20, 0) 4 0 (1/2) =
      .ok (decide (linGeo.dist 0 0 4 0 ≤ 1/2 ∨ linGeo.dist 20 0 4 0 ≤ 1/2 ∨
        ∃ i : ℕ, i ∈ List.range 11 ∧
          linGeo.dist (linGeo.fwd (0, 0) (20, 0) ((i : ℚ) / 10)).1
            (linGeo.fwd (0, 0) (20, 0) ((i : ℚ) / 10)).2 4 0 ≤ 1/2)) :=
  ⟨by with_unfolding_all decide, by with_unfolding_all decide, by with_unfolding_all decide,
    by with_unfolding_all decide,
    line_intersects_circle_sampled_characterization linGeo (0, 0) (20, 0) 4 0 (1/2)
      (by with_unfolding_all decide) (by with_unfolding_all decide)
      (by with_unfolding_all decide) (by with_unfolding_all decide)⟩

/-- The guard loop returns the first flight whose route intersects the
circle, provided every scanned flight's check evaluates (no coordinate
error) and some flight intersects. -/
theorem find_conflicting_flight_first (G : GeoModel) (s : FlightState)
    (center_lat center_lng radius : ℚ) :
    ∀ l : List FlightRequest,
      (∀ f ∈ l, ∃ b, route_intersects_zone G (flight_route_points s f)
        center_lat center_lng radius = .ok b) →
      (∃ f ∈ l, route_intersects_zone G (flight_route_points s f)
        center_lat center_lng radius = .ok true) →
      ∃ f ∈ l, route_intersects_zone G (flight_route_points s f)
          center_lat center_lng radius = .ok true ∧
        find_conflicting_flight G s center_lat center_lng radius l = .ok (some f) := by
  intro l
  induction l with
  | nil => intro _ hex; simp at hex
  | cons f rest ih =>
      intro hok hex
      obtain ⟨b, hb⟩ := hok f (by simp)
      cases b with
      | true =>
          refine ⟨f, by simp, hb, ?_⟩
          rw [find_conflicting_flight, hb, bind_ok_eq]
          simp
      | false =>
          have hex2 : ∃ g ∈ rest, route_intersects_zone G (flight_route_points s g)
              center_lat center_lng radius = .ok true := by
            rcases hex with ⟨g, hg, ht⟩
            rcases List.mem_cons.mp hg with rfl | hg2
            · rw [hb] at ht
              exact absurd (Except.ok.inj ht) (by simp)
            · exact ⟨g, hg2, ht⟩
          obtain ⟨g, hg, ht, hfind⟩ := ih (fun w hw => hok w (by simp [hw])) hex2
          refine ⟨g, by simp [hg], ht, ?_⟩
          rw [find_conflicting_flight, hb, bind_ok_eq]
          simpa using hfind

/-- C8: an administrative radius/altitude update or a deletion of a
restricted zone is rejected with an error naming an offending flight
whenever some approved-or-active flight whose planned end time has not
elapsed has a route intersecting the zone (against the NEW radius for the
update, the stored radius for the delete).  The rejection (`HTTPException`,
here `.error`) is raised before any mutation, so the zone is unchanged.
The hypotheses state that the zone id resolves to `zone`, that every
scanned flight's geometry check evaluates (in-range coordinates), and that
a conflicting flight exists for each operation. -/
theorem zone_mutation_rejected_on_conflicting_route (G : GeoModel) (s : FlightState)
    (zone : RestrictedZone) (zone_update : RestrictedZoneUpdate) (now : ℤ)
    (hz : s.restricted_zones.filter (fun z => decide (z.id = zone.id)) = [zone])
    (hupd_ok : ∀ f ∈ active_unelapsed_flights s.flight_requests now,
      ∃ b, route_intersects_zone G (flight_route_points s f)
        zone.center_lat zone.center_lng zone_update.radius = .ok b)
    (hupd_conf : ∃ f ∈ active_unelapsed_flights s.flight_requests now,
      route_intersects_zone G (flight_route_points s f)
        zone.center_lat zone.center_lng zone_update.radius = .ok true)
    (hdel_ok : ∀ f ∈ active_unelapsed_flights s.flight_requests now,
      ∃ b, route_intersects_zone G (flight_route_points s f)
        zone.center_lat zone.center_lng zone.radius = .ok b)
    (hdel_conf : ∃ f ∈ active_unelapsed_flights s.flight_requests now,
      route_intersects_zone G (flight_route_points s f)
        zone.center_lat zone.center_lng zone.radius = .ok true) :
    (∃ f, (f.status = "approved" ∨ f.status = "active") ∧ now < f.planned_end_time ∧
      route_intersects_zone G (flight_route_points s f)
        zone.center_lat zone.center_lng zone_update.radius = .ok true ∧
      update_restricted_zone G zone.id zone_update now s =
        .error ("Cannot update zone as it would affect active flight request " ++
          toString f.id)) ∧
    (∃ f, (f.status = "approved" ∨ f.status = "active") ∧ now < f.planned_end_time ∧
      route_intersects_zone G (flight_route_points s f)
        zone.center_lat zone.center_lng zone.radius = .ok true ∧
      delete_restricted_zone G zone.id now s =
        .error ("Cannot delete zone as it intersects with active flight request " ++
          toString f.id)) := by
  constructor
  · obtain ⟨f, hf, ht, hfind⟩ := find_conflicting_flight_first G s zone.center_lat
      zone.center_lng zone_update.radius _ hupd_ok hupd_conf
    have hmem := hf
    rw [active_unelapsed_flights, List.mem_filter, decide_eq_true_eq] at hmem
    refine ⟨f, hmem.2.1, hmem.2.2, ht, ?_⟩
    rw [update_restricted_zone, hz]
    simp only [scalar_one_or_none, bind_ok_eq]
    rw [hfind, bind_ok_eq]
  · obtain ⟨f, hf, ht, hfind⟩ := find_conflicting_flight_first G s zone.center_lat
      zone.center_lng zone.radius _ hdel_ok hdel_conf
    have hmem := hf
    rw [active_unelapsed_flights, List.mem_filter, decide_eq_true_eq] at hmem
    refine ⟨f, hmem.2.1, hmem.2.2, ht, ?_⟩
    rw [delete_restricted_zone, hz]
    simp only [scalar_one_or_none, bind_ok_eq]
    rw [hfind, bind_ok_eq]

/-- Witness for C8: zone 9 (`zoneW`, radius 10 at the origin), the approved
flight 7 whose single waypoint is inside the zone — both the radius update
and the deletion are rejected naming flight 7. -/
theorem zone_mutation_rejected_on_conflicting_route_witness :
    (∃ f : FlightRequest, (f.status = "approved" ∨ f.status = "active") ∧
      (0 : ℤ) < f.planned_end_time ∧
      route_intersects_zone linGeo (flight_route_points flightStateW f)
        zoneW.center_lat zoneW.center_lng
        ({ radius := 10, max_altitude := none } : RestrictedZoneUpdate).radius = .ok true ∧
      update_restricted_zone linGeo zoneW.id { radius := 10, max_altitude := none } 0
          flightStateW =
        .error ("Cannot update zone as it would affect active flight request " ++
          toString f.id)) ∧
    (∃ f : FlightRequest, (f.status = "approved" ∨ f.status = "active") ∧
      (0 : ℤ) < f.planned_end_time ∧
      route_intersects_zone linGeo (flight_route_points flightStateW f)
        zoneW.center_lat zoneW.center_lng zoneW.radius = .ok true ∧
      delete_restricted_zone linGeo zoneW.id 0 flightStateW =
        .error ("Cannot delete zone as it intersects with active flight request " ++
          toString f.id)) :=
  zone_mutation_rejected_on_conflicting_route linGeo flightStateW zoneW
    { radius := 10, max_altitude := none } 0
    (by with_unfolding_all decide) (by with_unfolding_all decide)
    (by with_unfolding_all decide) (by with_unfolding_all decide)
    (by with_unfolding_all decide)

/-- Mapping a function that preserves a predicate preserves the filter's
length. -/
theorem filter_length_map_of_pred_inv {α : Type} (l : List α) (f : α → α) (p : α → Bool)
    (h : ∀ x, p (f x) = p x) : ((l.map f).filter p).length = (l.filter p).length := by
  induction l with
  | nil => rfl
  | cons x rest ih =>
      by_cases hx : p x = true
      · simp [List.filter_cons, h x, hx, ih]
      · simp only [Bool.not_eq_true] at hx
        simp [List.filter_cons, h x, hx, ih]

/-- One live (second-definition) `process_telemetry_data` call for a drone
with at most one current row, whose H3 cell is present exactly once in the
grid, succeeds, leaves the drone with exactly one row, and does not touch
the hex-cell table. -/
theorem process_v2_upsert (G : GeoModel) (t : TelemetryDataCreate) (now : ℤ) (s : MonState)
    (hcell : (s.hex_grid_cells.filter (fun c =>
      decide (c.h3_index = G.geoToH3 t.latitude t.longitude 8))).length = 1)
    (hcount : position_count s t.drone_id ≤ 1) :
    ∃ r, process_telemetry_data G t now s = .ok r ∧
      position_count r.1 t.drone_id = 1 ∧ r.1.hex_grid_cells = s.hex_grid_cells := by
  obtain ⟨c, hc⟩ := List.length_eq_one.mp hcell
  rw [process_telemetry_data, hc]
  simp only [scalar_one_or_none, bind_ok_eq]
  rcases Nat.le_one_iff_eq_zero_or_eq_one.mp hcount with h0 | h1
  · have hnil : s.current_drone_positions.filter
        (fun p => decide (p.drone_id = t.drone_id)) = [] :=
      List.length_eq_zero.mp h0
    rw [hnil]
    simp only [scalar_one_or_none, bind_ok_eq]
    refine ⟨_, rfl, ?_, rfl⟩
    rw [position_count]
    simp [List.filter_append, hnil]
  · obtain ⟨p0, hp0⟩ := List.length_eq_one.mp h1
    rw [hp0]
    simp only [scalar_one_or_none, bind_ok_eq]
    refine ⟨_, rfl, ?_, rfl⟩
    rw [position_count]
    have := filter_length_map_of_pred_inv s.current_drone_positions
      (fun p =>
        if p.drone_id = t.drone_id then
          { p with
            hex_cell_id := c.id, latitude := t.latitude,
            longitude := t.longitude, altitude := t.altitude,
            speed := t.speed, heading := t.heading,
            battery_level := t.battery_level, status := t.status,
            flight_request_id := t.flight_request_id, last_update := now }
        else p)
      (fun p => decide (p.drone_id = t.drone_id))
      (by intro x; by_cases hx : x.drone_id = t.drone_id <;> simp [hx])
    rw [this, hp0]
    rfl

/-- Every sample of a run keeps the drone at exactly one row, provided each
sample's cell is present (once) in the grid and the drone starts with one
row. -/
theorem process_sequence_keeps_one (G : GeoModel) (d : ℤ) :
    ∀ (samples : List (TelemetryDataCreate × ℤ)) (s : MonState),
      (∀ q ∈ samples, (q : TelemetryDataCreate × ℤ).1.drone_id = d) →
      (∀ q ∈ samples, (s.hex_grid_cells.filter (fun c =>
        decide (c.h3_index =
          G.geoToH3 (q : TelemetryDataCreate × ℤ).1.latitude q.1.longitude 8))).length = 1) →
      position_count s d = 1 →
      ∃ s1, process_sequence G samples s = .ok s1 ∧ position_count s1 d = 1 := by
  intro samples
  induction samples with
  | nil => intro s _ _ h1; exact ⟨s, rfl, h1⟩
  | cons q rest ih =>
      intro s hd hcell h1
      obtain ⟨t, now⟩ := q
      have hdt : t.drone_id = d := hd (t, now) (by simp)
      obtain ⟨r, hr, hc1, hcells⟩ := process_v2_upsert G t now s
        (hcell (t, now) (by simp)) (by rw [hdt]; exact le_of_eq h1)
      rw [process_sequence, hr, bind_ok_eq]
      exact ih r.1 (fun w hw => hd w (by simp [hw]))
        (fun w hw => by rw [hcells]; exact hcell w (by simp [hw]))
        (hdt ▸ hc1)

/-- C5 (amended): for a drone with no current row, sequentially ingesting
N ≥ 1 telemetry samples through the live `process_telemetry_data` — each
sample's H3 cell being present in the (pre-populated) hex grid — succeeds
and leaves EXACTLY ONE current position row for the drone: the first sample
inserts it and every later sample updates it in place.  (When a sample's
cell is missing the position table is left untouched — see the
counterexample.) -/
theorem single_position_row_after_sequential_ingest (G : GeoModel) (d : ℤ)
    (samples : List (TelemetryDataCreate × ℤ)) (s0 : MonState)
    (hd : ∀ q ∈ samples, (q : TelemetryDataCreate × ℤ).1.drone_id = d)
    (hcell : ∀ q ∈ samples, (s0.hex_grid_cells.filter (fun c =>
      decide (c.h3_index =
        G.geoToH3 (q : TelemetryDataCreate × ℤ).1.latitude q.1.longitude 8))).length = 1)
    (h0 : position_count s0 d = 0) (hne : samples ≠ []) :
    ∃ s1, process_sequence G samples s0 = .ok s1 ∧ position_count s1 d = 1 := by
  match samples, hne with
  | (t, now) :: rest, _ =>
      have hdt : t.drone_id = d := hd (t, now) (by simp)
      obtain ⟨r, hr, hc1, hcells⟩ := process_v2_upsert G t now s0
        (hcell (t, now) (by simp)) (by rw [hdt, h0]; exact Nat.zero_le 1)
      rw [process_sequence, hr, bind_ok_eq]
      exact process_sequence_keeps_one G d rest r.1 (fun w hw => hd w (by simp [hw]))
        (fun w hw => by rw [hcells]; exact hcell w (by simp [hw]))
        (hdt ▸ hc1)

/-- Witness for C5's amended statement: two samples of drone 7 over the
one-cell grid leave exactly one row. -/
theorem single_position_row_after_sequential_ingest_witness :
    ∃ s1, process_sequence linGeo [(sampleInB, 0), (sampleInB, 10)] stateZoneB = .ok s1 ∧
      position_count s1 7 = 1 :=
  single_position_row_after_sequential_ingest linGeo 7 [(sampleInB, 0), (sampleInB, 10)]
    stateZoneB (by with_unfolding_all decide) (by with_unfolding_all decide)
    (by with_unfolding_all decide) (by with_unfolding_all decide)

end UTM
